import Mathlib

/-!
Verification of the analysis pipeline of `src/backend/ai_analyzer.py`
(the Newton's Lens experiment analyzer).

The embedding models:
* JSON values (`JVal`) as produced by Python's `json.loads`, with numbers as
  rationals;
* `json_loads`, a fuel-based JSON text parser standing for Python's
  `json.loads` (it accepts surrounding whitespace; the fuel `3 * length + 3`
  is ample for any input the parser can accept);
* Python `str.strip`, the markdown code-fence stripping of
  `ExperimentAnalyzer._parse_ai_response`, dict `in` / item assignment
  (including the `TypeError` they raise on non-dict values), and the mock
  fallback data of `ExperimentAnalyzer._mock_analysis`;
* the orchestration of `ExperimentAnalyzer.analyze_image` /
  `_analyze_with_ai`, with the external Gemini model call and base64 decoding
  abstracted as function parameters returning `Except`.
-/

/-- A decoded JSON value, as returned by Python's `json.loads`:
objects keep key order (Python 3.7+ dicts), numbers are rationals. -/
inductive JVal : Type where
  | null : JVal
  | bool : Bool → JVal
  | num : ℚ → JVal
  | str : String → JVal
  | arr : List JVal → JVal
  | obj : List (String × JVal) → JVal
deriving Repr

/-- JSON insignificant whitespace (RFC 8259): space, tab, newline, return. -/
def isJsonWs (c : Char) : Bool :=
  c = ' ' || c = '\t' || c = '\n' || c = '\r'

/-- Whitespace stripped by Python `str.strip()` (ASCII part). -/
def isPySpace (c : Char) : Bool :=
  c = ' ' || c = '\t' || c = '\n' || c = '\r' || c = '\x0b' || c = '\x0c'

/-- Skip insignificant JSON whitespace. -/
def skipWs : List Char → List Char
  | [] => []
  | c :: l => if isJsonWs c then skipWs l else c :: l

/-- Decimal digit test. -/
def isDig (c : Char) : Bool := '0' ≤ c && c ≤ '9'

def digitVal (c : Char) : Nat := c.toNat - '0'.toNat

def digitsToNat (ds : List Char) : Nat :=
  ds.foldl (fun a c => a * 10 + digitVal c) 0

/-- The character denoted by a JSON string escape `\e`. -/
def escChar (e : Char) : Option Char :=
  if e = '\x22' then some '\x22'
  else if e = '\\' then some '\\'
  else if e = '/' then some '/'
  else if e = 'b' then some '\x08'
  else if e = 'f' then some '\x0c'
  else if e = 'n' then some '\n'
  else if e = 'r' then some '\r'
  else if e = 't' then some '\t'
  else none

/-- Parse the body of a JSON string literal (after the opening quote),
returning the decoded characters and the rest after the closing quote. -/
def parseStrBody : List Char → Option (List Char × List Char)
  | [] => none
  | '\x22' :: r => some ([], r)
  | '\\' :: e :: r =>
    match escChar e with
    | none => none
    | some d => (parseStrBody r).map (fun p => (d :: p.1, p.2))
  | c :: r => (parseStrBody r).map (fun p => (c :: p.1, p.2))

/-- A leading minus sign. -/
def parseSign : List Char → Bool × List Char
  | [] => (false, [])
  | c :: r => if c = '-' then (true, r) else (false, c :: r)

/-- The optional fraction part `.digits`: its numeric value, its digit
count, and the rest. -/
def parseFrac : List Char → Option (Nat × Nat × List Char)
  | [] => some (0, 0, [])
  | c :: r =>
    if c = '.' then
      if (r.takeWhile isDig).isEmpty then none
      else some (digitsToNat (r.takeWhile isDig), (r.takeWhile isDig).length,
        r.dropWhile isDig)
    else some (0, 0, c :: r)

/-- The sign of an exponent (accepting `+` and `-`). -/
def parseExpSign : List Char → Bool × List Char
  | [] => (false, [])
  | c :: r =>
    if c = '-' then (true, r)
    else if c = '+' then (false, r)
    else (false, c :: r)

/-- The optional exponent part `e[±]digits`: its sign and magnitude, and
the rest. -/
def parseExp : List Char → Option (Bool × Nat × List Char)
  | [] => some (false, 0, [])
  | c :: r =>
    if c = 'e' || c = 'E' then
      if ((parseExpSign r).2.takeWhile isDig).isEmpty then none
      else some ((parseExpSign r).1, digitsToNat ((parseExpSign r).2.takeWhile isDig),
        (parseExpSign r).2.dropWhile isDig)
    else some (false, 0, c :: r)

/-- The rational value of a parsed number: sign, integer digits, fraction
numerator and digit count, exponent sign and magnitude (`mkRat` over plain
`Nat`/`Int` arithmetic). -/
def numVal (neg : Bool) (ds : List Char) (fn fl : Nat) (eneg : Bool)
    (emag : Nat) : ℚ :=
  let base : Nat := digitsToNat ds * 10 ^ fl + fn
  let n : ℤ := if neg then -(base : ℤ) else (base : ℤ)
  if eneg then mkRat n (10 ^ fl * 10 ^ emag)
  else mkRat (n * 10 ^ emag) (10 ^ fl)

/-- Parse a JSON number (integer part, optional fraction, optional
exponent), rejecting empty integer parts and leading zeros. -/
def parseNum (l : List Char) : Option (JVal × List Char) :=
  let l1 := (parseSign l).2
  let ds := l1.takeWhile isDig
  if ds.isEmpty then none
  else if 1 < ds.length && ds.headI = '0' then none
  else
    match parseFrac (l1.dropWhile isDig) with
    | none => none
    | some (fn, fl, l3) =>
      match parseExp l3 with
      | none => none
      | some (eneg, emag, l4) =>
        some (JVal.num (numVal (parseSign l).1 ds fn fl eneg emag), l4)

/-- Python dict assignment `m[k] = v`: overwrite in place, else append. -/
def dictInsert (m : List (String × JVal)) (k : String) (v : JVal) :
    List (String × JVal) :=
  match m with
  | [] => [(k, v)]
  | (k', v') :: rest =>
    if k' = k then (k', v) :: rest else (k', v') :: dictInsert rest k v

mutual

/-- Parse one JSON value; skips leading whitespace, dispatches on the first
significant character (mirrors the grammar `json.loads` accepts). -/
def parseVal : Nat → List Char → Option (JVal × List Char)
  | 0, _ => none
  | Nat.succ f, l =>
    match skipWs l with
    | '\x7b' :: r =>
      match parseObj f r with
      | some (m, r') => some (JVal.obj m, r')
      | none => none
    | '[' :: r =>
      match parseArr f r with
      | some (xs, r') => some (JVal.arr xs, r')
      | none => none
    | '\x22' :: r =>
      match parseStrBody r with
      | some (s, r') => some (JVal.str (String.mk s), r')
      | none => none
    | 't' :: 'r' :: 'u' :: 'e' :: r => some (JVal.bool true, r)
    | 'f' :: 'a' :: 'l' :: 's' :: 'e' :: r => some (JVal.bool false, r)
    | 'n' :: 'u' :: 'l' :: 'l' :: r => some (JVal.null, r)
    | r => parseNum r

/-- After the opening brace of an object: empty object or member list. -/
def parseObj : Nat → List Char → Option (List (String × JVal) × List Char)
  | 0, _ => none
  | Nat.succ f, l =>
    match skipWs l with
    | '\x7d' :: r => some ([], r)
    | l' => parseMembers f [] l'

/-- Members of an object, positioned at a key string (whitespace skipped). -/
def parseMembers : Nat → List (String × JVal) → List Char →
    Option (List (String × JVal) × List Char)
  | 0, _, _ => none
  | Nat.succ f, acc, l =>
    match l with
    | '\x22' :: r =>
      match parseStrBody r with
      | none => none
      | some (k, r1) =>
        match skipWs r1 with
        | ':' :: r2 =>
          match parseVal f r2 with
          | none => none
          | some (v, r3) =>
            match skipWs r3 with
            | ',' :: r4 => parseMembers f (dictInsert acc (String.mk k) v) (skipWs r4)
            | '\x7d' :: r4 => some (dictInsert acc (String.mk k) v, r4)
            | _ => none
        | _ => none
    | _ => none

/-- After the opening bracket of an array: empty array or item list. -/
def parseArr : Nat → List Char → Option (List JVal × List Char)
  | 0, _ => none
  | Nat.succ f, l =>
    match skipWs l with
    | ']' :: r => some ([], r)
    | l' => parseItems f l'

/-- Items of an array, positioned at a value. -/
def parseItems : Nat → List Char → Option (List JVal × List Char)
  | 0, _ => none
  | Nat.succ f, l =>
    match parseVal f l with
    | none => none
    | some (v, r) =>
      match skipWs r with
      | ',' :: r2 =>
        match parseItems f r2 with
        | some (xs, r3) => some (v :: xs, r3)
        | none => none
      | ']' :: r2 => some ([v], r2)
      | _ => none

end

/-- Python `str.strip()`: drop whitespace from both ends
(strip the left end, reverse, strip the left end again, reverse back). -/
def pyStrip (l : List Char) : List Char :=
  (((l.dropWhile isPySpace).reverse.dropWhile isPySpace).reverse)

/-- Run the parser on a whole text: one value, then only whitespace. -/
def jsonTop (s : List Char) : Option JVal :=
  match parseVal (3 * s.length + 3) s with
  | some (v, r) => if skipWs r = [] then some v else none
  | none => none

/-- Model of Python's `json.loads` on the character list of the input text.
`json.loads` accepts surrounding whitespace, modelled by stripping first;
the fuel bound `3 * length + 3` exceeds the recursion depth of any accepted
input. -/
def json_loads (t : List Char) : Option JVal :=
  jsonTop (pyStrip t)

example : json_loads ("[1, 2]".data) = some (JVal.arr [JVal.num 1, JVal.num 2]) := by
  rfl

example : json_loads ("not json".data) = none := by rfl

/-! ### Python-level primitives used by `_parse_ai_response` -/

/-- Python exceptions that can arise in the modelled code. `jsonDecodeError`
is `json.JSONDecodeError`; the others are not caught by
`_parse_ai_response`. -/
inductive PyExc : Type where
  | jsonDecodeError : PyExc
  | typeError : PyExc
  | indexError : PyExc
  | valueError : PyExc
  | modelError : PyExc
deriving Repr, DecidableEq

/-- `pat` is a prefix of `l` (Python `str.startswith`). -/
def lstarts : List Char → List Char → Bool
  | [], _ => true
  | _ :: _, [] => false
  | p :: ps, c :: cs => p == c && lstarts ps cs

/-- `pat` is a suffix of `l` (Python `str.endswith`). -/
def lends (pat l : List Char) : Bool := lstarts pat.reverse l.reverse

/-- `pat` occurs contiguously in `l` (Python `in` on strings). -/
def lsub (pat : List Char) : List Char → Bool
  | [] => pat.isEmpty
  | c :: r => lstarts pat (c :: r) || lsub pat r

/-- Python `s[:-n]` for `n ≤ len s`. -/
def dropLastN (n : Nat) (l : List Char) : List Char := (l.reverse.drop n).reverse

/-- `if response_text.startswith('```json'): response_text = response_text[7:]`. -/
def stripLeadJson (l : List Char) : List Char :=
  if lstarts ("```json".data) l then l.drop 7 else l

/-- `if response_text.startswith('```'): response_text = response_text[3:]`. -/
def stripLead3 (l : List Char) : List Char :=
  if lstarts ("```".data) l then l.drop 3 else l

/-- `if response_text.endswith('```'): response_text = response_text[:-3]`. -/
def stripTrail3 (l : List Char) : List Char :=
  if lends ("```".data) l then dropLastN 3 l else l

/-- The code-fence stripping done by `_parse_ai_response` before decoding:
drop a leading ```` ```json ````, then a leading ```` ``` ````, then a
trailing ```` ``` ````. -/
def stripFences (l : List Char) : List Char :=
  stripTrail3 (stripLead3 (stripLeadJson l))

/-- Lookup in a Python dict represented as an ordered association list. -/
def dlookup (m : List (String × JVal)) (k : String) : Option JVal :=
  match m with
  | [] => none
  | (k', v) :: rest => if k' = k then some v else dlookup rest k

/-- Python `k in analysis` for a string `k` and a decoded JSON value:
key membership on dicts, element equality on lists, substring test on
strings, `TypeError` otherwise. -/
def pyContains (k : String) (v : JVal) : Except PyExc Bool :=
  match v with
  | JVal.obj m => Except.ok (dlookup m k).isSome
  | JVal.arr xs =>
    Except.ok (xs.any (fun x =>
      match x with
      | JVal.str s => s = k
      | _ => false))
  | JVal.str s => Except.ok (lsub k.data s.data)
  | _ => Except.error PyExc.typeError

/-- Python `analysis[k] = x`: dict assignment, `TypeError` on anything else
(lists reject string indices too). -/
def pySetItem (v : JVal) (k : String) (x : JVal) : Except PyExc JVal :=
  match v with
  | JVal.obj m => Except.ok (JVal.obj (dictInsert m k x))
  | _ => Except.error PyExc.typeError

/-- One `if k not in analysis: analysis[k] = dflt` step of
`_parse_ai_response`. -/
def defaultKey (k : String) (dflt : JVal) (v : JVal) : Except PyExc JVal :=
  match pyContains k v with
  | Except.error e => Except.error e
  | Except.ok c => if c then Except.ok v else pySetItem v k dflt

/-- The three defaulting steps of `_parse_ai_response`
(`safety_warnings`, `guidance`, `confidence_score`). -/
def applyDefaults (v : JVal) : Except PyExc JVal :=
  match defaultKey ("safety_warnings") (JVal.arr []) v with
  | Except.error e => Except.error e
  | Except.ok v1 =>
    match defaultKey ("guidance") (JVal.arr []) v1 with
    | Except.error e => Except.error e
    | Except.ok v2 => defaultKey ("confidence_score") (JVal.num (mkRat 8 10)) v2

/-! ### The mock fallback data of `_mock_analysis` -/

/-- The `circuits` entry of `mock_data` in `_mock_analysis`. -/
def mock_circuits : JVal :=
  JVal.obj
    [ ("observations", JVal.str "I can see a basic electrical circuit with a battery, LED, and wires. The LED appears to be connected directly to the battery without a current-limiting resistor."),
      ("components", JVal.arr
        [ JVal.obj
            [ ("type", JVal.str "LED"),
              ("properties", JVal.obj [("color", JVal.str "red"), ("voltage", JVal.str "2V")]),
              ("position", JVal.str "center of breadboard"),
              ("connections", JVal.arr [JVal.str "9V battery positive"]) ],
          JVal.obj
            [ ("type", JVal.str "9V Battery"),
              ("properties", JVal.obj [("voltage", JVal.str "9V")]),
              ("position", JVal.str "left side"),
              ("connections", JVal.arr [JVal.str "LED", JVal.str "ground wire"]) ] ]),
      ("predicted_outcome", JVal.str "The LED will initially light up very brightly but will likely burn out within seconds due to excessive current. A 9V battery connected directly to an LED designed for 2-3V will cause permanent damage."),
      ("safety_warnings", JVal.arr
        [ JVal.obj
            [ ("severity", JVal.str "high"),
              ("message", JVal.str "LED connected without current-limiting resistor"),
              ("recommendation", JVal.str "Add a 470Ω to 1kΩ resistor in series with the LED to limit current to safe levels (10-20mA).") ],
          JVal.obj
            [ ("severity", JVal.str "medium"),
              ("message", JVal.str "Voltage mismatch detected"),
              ("recommendation", JVal.str "Use a lower voltage battery (3V) or add voltage regulation.") ] ]),
      ("guidance", JVal.arr
        [ JVal.obj [("step", JVal.num 1), ("instruction", JVal.str "Disconnect the LED from the battery immediately")],
          JVal.obj [("step", JVal.num 2), ("instruction", JVal.str "Calculate required resistor: R = (V_battery - V_led) / I_desired = (9V - 2V) / 0.02A = 350Ω")],
          JVal.obj [("step", JVal.num 3), ("instruction", JVal.str "Use a 470Ω resistor (standard value) in series with the LED")],
          JVal.obj [("step", JVal.num 4), ("instruction", JVal.str "Connect resistor to LED anode (longer leg)")],
          JVal.obj [("step", JVal.num 5), ("instruction", JVal.str "Connect LED cathode (shorter leg) to battery negative")],
          JVal.obj [("step", JVal.num 6), ("instruction", JVal.str "Connect resistor other end to battery positive")],
          JVal.obj [("step", JVal.num 7), ("instruction", JVal.str "Verify LED lights up at safe brightness level")] ]),
      ("confidence_score", JVal.num (mkRat 85 100)) ]

/-- The `chemistry` entry of `mock_data` in `_mock_analysis`. -/
def mock_chemistry : JVal :=
  JVal.obj
    [ ("observations", JVal.str "I can see laboratory glassware including beakers and what appears to be chemicals. Safety equipment is present."),
      ("components", JVal.arr
        [ JVal.obj
            [ ("type", JVal.str "Beaker"),
              ("properties", JVal.obj [("volume", JVal.str "250ml")]),
              ("position", JVal.str "center of workspace"),
              ("connections", JVal.arr []) ],
          JVal.obj
            [ ("type", JVal.str "Chemical reagents"),
              ("properties", JVal.obj []),
              ("position", JVal.str "right side"),
              ("connections", JVal.arr []) ] ]),
      ("predicted_outcome", JVal.str "When these chemicals are mixed, a reaction will occur. The exact outcome depends on the specific chemicals being used."),
      ("safety_warnings", JVal.arr
        [ JVal.obj
            [ ("severity", JVal.str "high"),
              ("message", JVal.str "Always wear safety goggles and gloves when handling chemicals"),
              ("recommendation", JVal.str "Put on appropriate personal protective equipment before proceeding.") ],
          JVal.obj
            [ ("severity", JVal.str "medium"),
              ("message", JVal.str "Ensure proper ventilation"),
              ("recommendation", JVal.str "Conduct experiment in a well-ventilated area or fume hood.") ] ]),
      ("guidance", JVal.arr
        [ JVal.obj [("step", JVal.num 1), ("instruction", JVal.str "Put on safety goggles and lab gloves")],
          JVal.obj [("step", JVal.num 2), ("instruction", JVal.str "Verify all chemicals are properly labeled")],
          JVal.obj [("step", JVal.num 3), ("instruction", JVal.str "Add chemicals slowly while stirring")],
          JVal.obj [("step", JVal.num 4), ("instruction", JVal.str "Monitor for any unexpected reactions or heat generation")],
          JVal.obj [("step", JVal.num 5), ("instruction", JVal.str "Dispose of chemicals properly according to lab protocols")] ]),
      ("confidence_score", JVal.num (mkRat 75 100)) ]

/-- The `physics` entry of `mock_data` in `_mock_analysis`. -/
def mock_physics : JVal :=
  JVal.obj
    [ ("observations", JVal.str "I can see a mechanical setup with what appears to be a ramp and objects for motion experiments."),
      ("components", JVal.arr
        [ JVal.obj
            [ ("type", JVal.str "Inclined plane"),
              ("properties", JVal.obj [("angle", JVal.str "30 degrees")]),
              ("position", JVal.str "center"),
              ("connections", JVal.arr []) ],
          JVal.obj
            [ ("type", JVal.str "Rolling object"),
              ("properties", JVal.obj [("shape", JVal.str "sphere")]),
              ("position", JVal.str "top of ramp"),
              ("connections", JVal.arr []) ] ]),
      ("predicted_outcome", JVal.str "The object will roll down the inclined plane, accelerating due to gravity. The final velocity will depend on the height and friction coefficient."),
      ("safety_warnings", JVal.arr
        [ JVal.obj
            [ ("severity", JVal.str "low"),
              ("message", JVal.str "Ensure the ramp is stable and won\x27t tip over"),
              ("recommendation", JVal.str "Secure the base of the ramp to prevent movement during the experiment.") ] ]),
      ("guidance", JVal.arr
        [ JVal.obj [("step", JVal.num 1), ("instruction", JVal.str "Measure and record the ramp angle")],
          JVal.obj [("step", JVal.num 2), ("instruction", JVal.str "Mark starting and ending positions")],
          JVal.obj [("step", JVal.num 3), ("instruction", JVal.str "Release the object gently from the starting position")],
          JVal.obj [("step", JVal.num 4), ("instruction", JVal.str "Time the descent with a stopwatch")],
          JVal.obj [("step", JVal.num 5), ("instruction", JVal.str "Calculate velocity and acceleration from your measurements")] ]),
      ("confidence_score", JVal.num (mkRat 80 100)) ]

/-- `ExperimentAnalyzer._mock_analysis`: `mock_data.get(experiment_type,
mock_data[circuits])` — the three known domains, anything else mapping to
the circuits entry. -/
def mock_analysis (experiment_type : String) : JVal :=
  if experiment_type = "circuits" then mock_circuits
  else if experiment_type = "chemistry" then mock_chemistry
  else if experiment_type = "physics" then mock_physics
  else mock_circuits

/-- The `try` block of `_parse_ai_response`: strip, remove code fences,
strip again, `json.loads`, then default the three optional keys.
A decode failure is `json.JSONDecodeError`; the defaulting steps can raise
`TypeError` on non-dict values. -/
def parse_try (text : List Char) : Except PyExc JVal :=
  match json_loads (pyStrip (stripFences (pyStrip text))) with
  | none => Except.error PyExc.jsonDecodeError
  | some a => applyDefaults a

/-- `ExperimentAnalyzer._parse_ai_response`: run the `try` block; only
`json.JSONDecodeError` is caught (returning the mock analysis), every other
exception propagates. -/
def parse_ai_response (text : List Char) (experiment_type : String) :
    Except PyExc JVal :=
  match parse_try text with
  | Except.error PyExc.jsonDecodeError => Except.ok (mock_analysis experiment_type)
  | r => r

/-! ### The prompt builder `_build_analysis_prompt` -/

/-- The fixed preamble (`base_prompt`). -/
def base_prompt : String :=
  "You are Newton\x27s Lens, an expert AI lab assistant for science experiments.\nAnalyze this experimental setup image and provide a detailed analysis in JSON format.\n\nYour analysis should include:\n1. Components identified in the setup\n2. How components are connected or arranged\n3. Predicted outcome of the experiment\n4. Safety warnings (if any)\n5. Step-by-step guidance for proper execution\n6. Confidence score (0-1)\n\nFocus on:"

/-- The `circuits` focus block of `type_specific`. -/
def ts_circuits : String :=
  "\n- Identify electronic components (resistors, LEDs, batteries, wires, breadboards)\n- Check for proper connections and polarity\n- Calculate current and voltage if possible\n- Warn about short circuits, reverse polarity, or component damage risks\n- Provide guidance on proper circuit assembly"

/-- The `chemistry` focus block of `type_specific`. -/
def ts_chemistry : String :=
  "\n- Identify chemicals, glassware, and equipment\n- Check for proper safety equipment (gloves, goggles)\n- Warn about dangerous chemical reactions\n- Note proper mixing order and safety precautions\n- Provide guidance on safe chemical handling"

/-- The `physics` focus block of `type_specific`. -/
def ts_physics : String :=
  "\n- Identify mechanical components and setup\n- Analyze forces, motion, or energy involved\n- Check for stability and safety of the setup\n- Predict physical outcomes\n- Provide guidance on measurement and execution"

/-- The `general` focus block of `type_specific`. -/
def ts_general : String :=
  "\n- Identify all visible components and materials\n- Analyze the experimental setup\n- Provide safety recommendations\n- Suggest proper execution steps"

/-- The fixed schema block (`json_format`). -/
def json_format : String :=
  "\n\nReturn your analysis as a valid JSON object with this structure:\n\x7b\n  \x22observations\x22: \x22Detailed description of what you see\x22,\n  \x22components\x22: [\n    \x7b\n      \x22type\x22: \x22component type\x22,\n      \x22properties\x22: \x7b\x22key\x22: \x22value\x22\x7d,\n      \x22position\x22: \x22description\x22,\n      \x22connections\x22: [\x22connected to\x22]\n    \x7d\n  ],\n  \x22predicted_outcome\x22: \x22What will happen when this experiment is executed\x22,\n  \x22safety_warnings\x22: [\n    \x7b\n      \x22severity\x22: \x22low|medium|high|critical\x22,\n      \x22message\x22: \x22Warning message\x22,\n      \x22recommendation\x22: \x22How to fix it\x22\n    \x7d\n  ],\n  \x22guidance\x22: [\n    \x7b\n      \x22step\x22: 1,\n      \x22instruction\x22: \x22Step instruction\x22\n    \x7d\n  ],\n  \x22confidence_score\x22: 0.95\n\x7d\n\nEnsure the response is ONLY valid JSON, no additional text."

/-- `ExperimentAnalyzer._build_analysis_prompt`:
`base_prompt + type_specific.get(experiment_type, type_specific[general]) +
json_format` — the `general` block serves both the `general` key and every
unrecognized domain. -/
def build_analysis_prompt (experiment_type : String) : String :=
  base_prompt ++
    (if experiment_type = "circuits" then ts_circuits
     else if experiment_type = "chemistry" then ts_chemistry
     else if experiment_type = "physics" then ts_physics
     else ts_general) ++
  json_format

/-! ### The orchestrator `analyze_image` / `_analyze_with_ai`

The Gemini call (`self.model.generate_content` + `response.text`) and
`base64.b64decode` are external capabilities, passed in as functions that
either return data or raise a Python exception. -/

/-- `image_data.split(',')` (Python splits at every comma). -/
def splitComma : List Char → List (List Char)
  | [] => [[]]
  | c :: r =>
    if c = ',' then [] :: splitComma r
    else
      match splitComma r with
      | g :: gs => (c :: g) :: gs
      | [] => [[c]]

/-- Python list indexing `xs[1]`, raising `IndexError` when absent. -/
def pyIndex1 (xs : List (List Char)) : Except PyExc (List Char) :=
  match xs with
  | _ :: x :: _ => Except.ok x
  | _ => Except.error PyExc.indexError

/-- The `try` block of `_analyze_with_ai`: strip an embedded data-URL
header, base64-decode, build the prompt, invoke the model, parse. -/
def analyze_try
    (genContent : String → List Char → Except PyExc (List Char))
    (b64decode : List Char → Except PyExc (List Char))
    (image_data : List Char) (experiment_type : String) :
    Except PyExc JVal :=
  match
    (if lstarts ("data:image".data) image_data then pyIndex1 (splitComma image_data)
     else Except.ok image_data) with
  | Except.error e => Except.error e
  | Except.ok payload =>
    match b64decode payload with
    | Except.error e => Except.error e
    | Except.ok image_bytes =>
      match genContent (build_analysis_prompt experiment_type) image_bytes with
      | Except.error e => Except.error e
      | Except.ok analysis_text => parse_ai_response analysis_text experiment_type

/-- `ExperimentAnalyzer._analyze_with_ai`: the `try` block with
`except Exception` returning `_mock_analysis(experiment_type)`. -/
def analyze_with_ai
    (genContent : String → List Char → Except PyExc (List Char))
    (b64decode : List Char → Except PyExc (List Char))
    (image_data : List Char) (experiment_type : String) : JVal :=
  match analyze_try genContent b64decode image_data experiment_type with
  | Except.ok a => a
  | Except.error _ => mock_analysis experiment_type

/-- `ExperimentAnalyzer.analyze_image`: model-backed when `use_ai` is set
(a `GEMINI_API_KEY` was present at construction), mock otherwise. -/
def analyze_image (use_ai : Bool)
    (genContent : String → List Char → Except PyExc (List Char))
    (b64decode : List Char → Except PyExc (List Char))
    (image_data : List Char) (experiment_type : String) : JVal :=
  if use_ai then analyze_with_ai genContent b64decode image_data experiment_type
  else mock_analysis experiment_type

/-! ### Field accessors and validity checks for analysis results -/

/-- Field access on a decoded JSON object. -/
def jGet (v : JVal) (k : String) : Option JVal :=
  match v with
  | JVal.obj m => dlookup m k
  | _ => none

/-- Length of the array stored under key `k`. -/
def jArrLen (v : JVal) (k : String) : Option Nat :=
  match jGet v k with
  | some (JVal.arr xs) => some xs.length
  | _ => none

/-- The four allowed severities of a safety warning. -/
def validSeverity (s : String) : Bool :=
  s = "low" || s = "medium" || s = "high" || s = "critical"

/-- Every safety warning of the result carries a valid severity. -/
def warningsValid (v : JVal) : Bool :=
  match jGet v ("safety_warnings") with
  | some (JVal.arr ws) =>
    ws.all (fun w =>
      match jGet w ("severity") with
      | some (JVal.str s) => validSeverity s
      | _ => false)
  | _ => false

/-- The guidance steps are numbered `n, n+1, ...` in order. -/
def stepsFrom : Nat → List JVal → Bool
  | _, [] => true
  | n, g :: gs =>
    (match jGet g ("step") with
     | some (JVal.num q) => decide (q = (n : ℚ))
     | _ => false) && stepsFrom (n + 1) gs

/-- The guidance list is numbered consecutively from 1. -/
def guidanceConsecutive (v : JVal) : Bool :=
  match jGet v ("guidance") with
  | some (JVal.arr gs) => stepsFrom 1 gs
  | _ => false

/-- The confidence score is a number in `[0, 1]`. -/
def confidenceInRange (v : JVal) : Bool :=
  match jGet v ("confidence_score") with
  | some (JVal.num q) => decide (0 ≤ q ∧ q ≤ 1)
  | _ => false

/-- The schema invariants claimed for the fallback results. -/
def resultValid (v : JVal) : Bool :=
  confidenceInRange v && warningsValid v && guidanceConsecutive v

example :
    json_loads (" \x7b\x22a\x22: 1.5\x7d ".data) =
      some (JVal.obj [("a", JVal.num (mkRat 3 2))]) := by rfl

/-! ### Concrete capability instances used to exercise the theorems -/

/-- A model invocation that always fails (every call raises). -/
def genC_fail : String → List Char → Except PyExc (List Char) :=
  fun _ _ => Except.error PyExc.modelError

/-- A model invocation that always returns the fixed text `t`. -/
def genC_text (t : List Char) : String → List Char → Except PyExc (List Char) :=
  fun _ _ => Except.ok t

/-- A base64 decoder stub that accepts every payload unchanged. -/
def b64_id : List Char → Except PyExc (List Char) :=
  fun p => Except.ok p

/-! ### Lemmas -/

theorem skipWs_suffix (l : List Char) : skipWs l <:+ l := by
  induction l with
  | nil => exact List.suffix_rfl
  | cons c l ih =>
    simp only [skipWs]
    split
    · exact ih.trans (List.suffix_cons c l)
    · exact List.suffix_rfl

theorem skipWs_cons_not (c : Char) (l : List Char) (h : isJsonWs c = false) :
    skipWs (c :: l) = c :: l := by
  simp [skipWs, h]

theorem skipWs_nil_ws (l : List Char) (h : skipWs l = []) :
    ∀ c ∈ l, isJsonWs c = true := by
  induction l with
  | nil => intro c hc; cases hc
  | cons d l ih =>
    intro c hc
    simp only [skipWs] at h
    split at h
    · rcases List.mem_cons.mp hc with rfl | hc'
      · assumption
      · exact ih h c hc'
    · cases h

theorem parseStrBody_suffix : ∀ l s r, parseStrBody l = some (s, r) → r <:+ l := by
  intro l
  induction l using parseStrBody.induct <;> intro s r h
  case case1 => cases h
  case case2 r0 =>
    have h2 : some (([] : List Char), r0) = some (s, r) := h
    cases h2
    exact List.suffix_cons _ _
  case case3 e r0 hesc =>
    have h2 : (match escChar e with
        | none => (none : Option (List Char × List Char))
        | some d => (parseStrBody r0).map (fun p => (d :: p.1, p.2))) = some (s, r) := h
    rw [hesc] at h2
    cases h2
  case case4 e r0 d hesc ih =>
    have h2 : (match escChar e with
        | none => (none : Option (List Char × List Char))
        | some d => (parseStrBody r0).map (fun p => (d :: p.1, p.2))) = some (s, r) := h
    rw [hesc] at h2
    rcases Option.map_eq_some'.mp h2 with ⟨⟨s0, r1⟩, hp, hpe⟩
    cases hpe
    exact ((ih _ _ hp).trans (List.suffix_cons _ _)).trans (List.suffix_cons _ _)
  case case5 c r0 hq hb ih =>
    simp only [parseStrBody] at h
    rcases Option.map_eq_some'.mp h with ⟨⟨s0, r1⟩, hp, hpe⟩
    cases hpe
    exact (ih _ _ hp).trans (List.suffix_cons _ _)

theorem parseSign_suffix (l : List Char) : (parseSign l).2 <:+ l := by
  cases l with
  | nil => exact List.suffix_rfl
  | cons c r =>
    simp only [parseSign]
    split <;> dsimp only
    · exact List.suffix_cons _ _
    · exact List.suffix_rfl

theorem parseExpSign_suffix (l : List Char) : (parseExpSign l).2 <:+ l := by
  cases l with
  | nil => exact List.suffix_rfl
  | cons c r =>
    simp only [parseExpSign]
    split
    · exact List.suffix_cons _ _
    · split <;> dsimp only
      · exact List.suffix_cons _ _
      · exact List.suffix_rfl

theorem parseFrac_suffix (l : List Char) (fn fl : Nat) (r : List Char)
    (h : parseFrac l = some (fn, fl, r)) : r <:+ l := by
  cases l with
  | nil =>
    cases h
    exact List.suffix_rfl
  | cons c r0 =>
    simp only [parseFrac] at h
    split at h
    · split at h
      · cases h
      · cases h
        exact (List.dropWhile_suffix _).trans (List.suffix_cons _ _)
    · cases h
      exact List.suffix_rfl

theorem parseExp_suffix (l : List Char) (en : Bool) (em : Nat) (r : List Char)
    (h : parseExp l = some (en, em, r)) : r <:+ l := by
  cases l with
  | nil =>
    cases h
    exact List.suffix_rfl
  | cons c r0 =>
    simp only [parseExp] at h
    split at h
    · split at h
      · cases h
      · cases h
        exact ((List.dropWhile_suffix _).trans (parseExpSign_suffix r0)).trans
          (List.suffix_cons _ _)
    · cases h
      exact List.suffix_rfl

theorem parseNum_suffix (l : List Char) (v : JVal) (r : List Char)
    (h : parseNum l = some (v, r)) : r <:+ l := by
  simp only [parseNum] at h
  split at h
  · cases h
  · split at h
    · cases h
    · split at h
      next => cases h
      next fn fl l3 hf =>
        split at h
        next => cases h
        next en em l4 he =>
          cases h
          exact (((parseExp_suffix _ _ _ _ he).trans
              (parseFrac_suffix _ _ _ _ hf)).trans
              (List.dropWhile_suffix _)).trans (parseSign_suffix l)

theorem parseNum_is_num (l : List Char) (v : JVal) (r : List Char)
    (h : parseNum l = some (v, r)) : ∃ q, v = JVal.num q := by
  simp only [parseNum] at h
  split at h
  · cases h
  · split at h
    · cases h
    · split at h
      next => cases h
      next fn fl l3 hf =>
        split at h
        next => cases h
        next en em l4 he =>
          cases h
          exact ⟨_, rfl⟩

set_option maxHeartbeats 1000000 in
theorem parser_suffix : ∀ f : Nat,
    (∀ l v r, parseVal f l = some (v, r) → r <:+ l) ∧
    (∀ l m r, parseObj f l = some (m, r) → r <:+ l) ∧
    (∀ acc l m r, parseMembers f acc l = some (m, r) → r <:+ l) ∧
    (∀ l xs r, parseArr f l = some (xs, r) → r <:+ l) ∧
    (∀ l xs r, parseItems f l = some (xs, r) → r <:+ l) := by
  intro f
  induction f with
  | zero =>
    exact ⟨fun l v r h => Option.noConfusion h, fun l m r h => Option.noConfusion h,
      fun a l m r h => Option.noConfusion h, fun l x r h => Option.noConfusion h,
      fun l x r h => Option.noConfusion h⟩
  | succ f ih =>
    obtain ⟨ihV, ihO, ihM, ihA, ihI⟩ := ih
    refine ⟨?_, ?_, ?_, ?_, ?_⟩
    · -- parseVal
      intro l v r h
      have hsw : skipWs l <:+ l := skipWs_suffix l
      simp only [parseVal] at h
      split at h
      next r0 heq =>
        rw [heq] at hsw
        split at h
        next m r1 heq2 =>
          cases h
          exact ((ihO _ _ _ heq2).trans (List.suffix_cons _ _)).trans hsw
        next => cases h
      next r0 heq =>
        rw [heq] at hsw
        split at h
        next xs r1 heq2 =>
          cases h
          exact ((ihA _ _ _ heq2).trans (List.suffix_cons _ _)).trans hsw
        next => cases h
      next r0 heq =>
        rw [heq] at hsw
        split at h
        next s r1 heq2 =>
          cases h
          exact ((parseStrBody_suffix _ _ _ heq2).trans (List.suffix_cons _ _)).trans hsw
        next => cases h
      next r0 heq =>
        rw [heq] at hsw
        cases h
        exact (((((List.suffix_cons _ _).trans (List.suffix_cons _ _)).trans
          (List.suffix_cons _ _)).trans (List.suffix_cons _ _))).trans hsw
      next r0 heq =>
        rw [heq] at hsw
        cases h
        exact (((((List.suffix_cons _ _).trans (List.suffix_cons _ _)).trans
          (List.suffix_cons _ _)).trans (List.suffix_cons _ _)).trans
          (List.suffix_cons _ _)).trans hsw
      next r0 heq =>
        rw [heq] at hsw
        cases h
        exact ((((List.suffix_cons _ _).trans (List.suffix_cons _ _)).trans
          (List.suffix_cons _ _)).trans (List.suffix_cons _ _)).trans hsw
      next =>
        exact (parseNum_suffix _ _ _ h).trans hsw
    · -- parseObj
      intro l m r h
      have hsw : skipWs l <:+ l := skipWs_suffix l
      simp only [parseObj] at h
      split at h
      next r0 heq =>
        rw [heq] at hsw
        cases h
        exact (List.suffix_cons _ _).trans hsw
      next =>
        exact (ihM _ _ _ _ h).trans hsw
    · -- parseMembers
      intro acc l m r h
      simp only [parseMembers] at h
      split at h
      next r0 =>
        split at h
        next => cases h
        next k r1 heq1 =>
          have h1 : r1 <:+ r0 := parseStrBody_suffix _ _ _ heq1
          have hsw1 : skipWs r1 <:+ r1 := skipWs_suffix r1
          split at h
          next r2 heq2 =>
            rw [heq2] at hsw1
            have h2 : r2 <:+ '\x22' :: r0 := by
              have hc : r2 <:+ ':' :: r2 := List.suffix_cons _ _
              exact ((hc.trans hsw1).trans h1).trans (List.suffix_cons _ _)
            split at h
            next => cases h
            next v r3 heq3 =>
              have h3 : r3 <:+ '\x22' :: r0 := (ihV _ _ _ heq3).trans h2
              have hsw3 : skipWs r3 <:+ r3 := skipWs_suffix r3
              split at h
              next r4 heq4 =>
                rw [heq4] at hsw3
                have h4 : skipWs r4 <:+ '\x22' :: r0 :=
                  (((skipWs_suffix r4).trans (List.suffix_cons _ _)).trans hsw3).trans h3
                exact (ihM _ _ _ _ h).trans h4
              next r4 heq4 =>
                rw [heq4] at hsw3
                cases h
                exact ((List.suffix_cons _ _).trans hsw3).trans h3
              next => cases h
          next => cases h
      next => cases h
    · -- parseArr
      intro l xs r h
      have hsw : skipWs l <:+ l := skipWs_suffix l
      simp only [parseArr] at h
      split at h
      next r0 heq =>
        rw [heq] at hsw
        cases h
        exact (List.suffix_cons _ _).trans hsw
      next =>
        exact (ihI _ _ _ h).trans hsw
    · -- parseItems
      intro l xs r h
      simp only [parseItems] at h
      split at h
      next => cases h
      next v r0 heq =>
        have h0 : r0 <:+ l := ihV _ _ _ heq
        have hsw : skipWs r0 <:+ r0 := skipWs_suffix r0
        split at h
        next r2 heq2 =>
          rw [heq2] at hsw
          split at h
          next xs2 r3 heq3 =>
            cases h
            exact (((ihI _ _ _ heq3).trans (List.suffix_cons _ _)).trans hsw).trans h0
          next => cases h
        next r2 heq2 =>
          rw [heq2] at hsw
          cases h
          exact ((List.suffix_cons _ _).trans hsw).trans h0
        next => cases h

/-- A successful `parseVal` returning an object must have dispatched on a
leading `{`. -/
theorem parseVal_obj (f : Nat) (l : List Char) (o : List (String × JVal))
    (r : List Char) (h : parseVal (f + 1) l = some (JVal.obj o, r)) :
    ∃ u, skipWs l = '\x7b' :: u ∧ parseObj f u = some (o, r) := by
  simp only [parseVal] at h
  split at h
  next u heq =>
    split at h
    next m r1 heq2 =>
      cases h
      exact ⟨u, heq, heq2⟩
    next => cases h
  next u heq =>
    split at h
    next xs r1 heq2 => cases h
    next => cases h
  next u heq =>
    split at h
    next s r1 heq2 => cases h
    next => cases h
  next u heq => cases h
  next u heq => cases h
  next u heq => cases h
  next =>
    obtain ⟨q, hq⟩ := parseNum_is_num _ _ _ h
    cases hq

set_option maxHeartbeats 1000000 in
/-- A successful object parse consumes through a closing `}`. -/
theorem parse_close : ∀ f : Nat,
    (∀ l m r, parseObj f l = some (m, r) → ∃ p, l = p ++ '\x7d' :: r) ∧
    (∀ acc l m r, parseMembers f acc l = some (m, r) → ∃ p, l = p ++ '\x7d' :: r) := by
  intro f
  induction f with
  | zero =>
    exact ⟨fun l m r h => Option.noConfusion h,
      fun a l m r h => Option.noConfusion h⟩
  | succ f ih =>
    obtain ⟨ihO, ihM⟩ := ih
    constructor
    · intro l m r h
      simp only [parseObj] at h
      split at h
      next r0 heq =>
        cases h
        obtain ⟨p, hp⟩ := skipWs_suffix l
        exact ⟨p, by rw [← hp, heq]⟩
      next =>
        obtain ⟨p1, hp1⟩ := ihM _ _ _ _ h
        obtain ⟨p0, hp0⟩ := skipWs_suffix l
        exact ⟨p0 ++ p1, by rw [← hp0, hp1, List.append_assoc]⟩
    · intro acc l m r h
      simp only [parseMembers] at h
      split at h
      next r0 =>
        split at h
        next => cases h
        next k r1 heq1 =>
          obtain ⟨p1, hp1⟩ := parseStrBody_suffix _ _ _ heq1
          split at h
          next r2 heq2 =>
            obtain ⟨p2, hp2⟩ := skipWs_suffix r1
            rw [heq2] at hp2
            split at h
            next => cases h
            next v r3 heq3 =>
              obtain ⟨p3, hp3⟩ := (parser_suffix f).1 _ _ _ heq3
              split at h
              next r4 heq4 =>
                obtain ⟨p4, hp4⟩ := skipWs_suffix r3
                rw [heq4] at hp4
                obtain ⟨p6, hp6⟩ := ihM _ _ _ _ h
                obtain ⟨p5, hp5⟩ := skipWs_suffix r4
                rw [hp6] at hp5
                subst hp1
                subst hp2
                subst hp3
                subst hp4
                subst hp5
                refine ⟨'\x22' :: (p1 ++ p2 ++ [':'] ++ p3 ++ p4 ++ [','] ++ p5 ++ p6), ?_⟩
                simp [List.append_assoc]
              next r4 heq4 =>
                obtain ⟨p4, hp4⟩ := skipWs_suffix r3
                rw [heq4] at hp4
                cases h
                subst hp1
                subst hp2
                subst hp3
                subst hp4
                refine ⟨'\x22' :: (p1 ++ p2 ++ [':'] ++ p3 ++ p4), ?_⟩
                simp [List.append_assoc]
              next => cases h
          next => cases h
      next => cases h

theorem dropWhile_head_not (p : Char → Bool) (l : List Char) (c : Char)
    (h : (l.dropWhile p).head? = some c) : p c = false := by
  induction l with
  | nil => cases h
  | cons d l ih =>
    simp only [List.dropWhile_cons] at h
    split at h
    · exact ih h
    · cases h
      next hd => simpa using hd

theorem isJsonWs_isPySpace (c : Char) (h : isJsonWs c = true) :
    isPySpace c = true := by
  simp only [isJsonWs, Bool.or_eq_true, decide_eq_true_eq] at h
  simp only [isPySpace, Bool.or_eq_true, decide_eq_true_eq]
  tauto

theorem pyStrip_head (l : List Char) (c : Char)
    (h : (pyStrip l).head? = some c) : isPySpace c = false := by
  unfold pyStrip at h
  rw [List.head?_reverse] at h
  set Y := ((l.dropWhile isPySpace).reverse).dropWhile isPySpace with hY
  have hsuf : Y <:+ (l.dropWhile isPySpace).reverse := List.dropWhile_suffix _
  obtain ⟨q, hq⟩ := hsuf
  have hYne : Y ≠ [] := by
    intro he
    rw [he] at h
    cases h
  have h2 : ((l.dropWhile isPySpace).reverse).getLast? = some c := by
    rw [← hq]
    rwa [List.getLast?_append_of_ne_nil q hYne]
  rw [List.getLast?_reverse] at h2
  exact dropWhile_head_not _ _ _ h2

theorem pyStrip_last (l : List Char) (c : Char)
    (h : (pyStrip l).getLast? = some c) : isPySpace c = false := by
  unfold pyStrip at h
  rw [List.getLast?_reverse] at h
  exact dropWhile_head_not _ _ _ h

theorem pyStrip_noop (a b : Char) (m : List Char)
    (ha : isPySpace a = false) (hb : isPySpace b = false) :
    pyStrip (a :: (m ++ [b])) = a :: (m ++ [b]) := by
  unfold pyStrip
  rw [List.dropWhile_cons, if_neg (by simp [ha])]
  rw [show (a :: (m ++ [b])).reverse = b :: (m.reverse ++ [a]) by simp]
  rw [List.dropWhile_cons, if_neg (by simp [hb])]
  simp

theorem pyStrip_single (a : Char) (ha : isPySpace a = false) :
    pyStrip [a] = [a] := by
  unfold pyStrip
  rw [List.dropWhile_cons, if_neg (by simp [ha])]
  simp [List.dropWhile_cons, if_neg, ha]

theorem pyStrip_cons_ws (c : Char) (l : List Char) (h : isPySpace c = true) :
    pyStrip (c :: l) = pyStrip l := by
  unfold pyStrip
  rw [List.dropWhile_cons, if_pos h]

theorem pyStrip_snoc_ws (c : Char) (l : List Char) (h : isPySpace c = true) :
    pyStrip (l ++ [c]) = pyStrip l := by
  unfold pyStrip
  rw [List.dropWhile_append]
  split
  next he =>
    rw [List.isEmpty_iff] at he
    rw [he]
    simp [List.dropWhile_cons, h]
  next he =>
    rw [List.isEmpty_iff] at he
    rw [show ((l.dropWhile isPySpace) ++ [c]).reverse =
      c :: (l.dropWhile isPySpace).reverse by simp]
    rw [List.dropWhile_cons, if_pos h]

/-- A text decoding to a JSON object is, after stripping, exactly
`{ ... }`: it begins with a brace and ends with a brace. -/
theorem json_loads_obj_shape (t : List Char) (o : List (String × JVal))
    (h : json_loads t = some (JVal.obj o)) :
    ∃ p, pyStrip t = '\x7b' :: (p ++ ['\x7d']) := by
  unfold json_loads jsonTop at h
  split at h
  next v r heq =>
    split at h
    next hr =>
      cases h
      have heq' : parseVal ((3 * (pyStrip t).length + 2) + 1) (pyStrip t) =
          some (JVal.obj o, r) := heq
      obtain ⟨u, hu, hobj⟩ := parseVal_obj _ _ _ _ heq'
      cases hM : pyStrip t with
      | nil =>
        rw [hM] at hu
        cases hu
      | cons a m =>
        have hhead : isPySpace a = false := pyStrip_head t a (by rw [hM]; rfl)
        have hjson : isJsonWs a = false := by
          cases hj : isJsonWs a
          · rfl
          · rw [isJsonWs_isPySpace a hj] at hhead; cases hhead
        rw [hM, skipWs_cons_not a m hjson] at hu
        cases hu
        obtain ⟨p, hp⟩ := (parse_close _).1 _ _ _ hobj
        have hrws := skipWs_nil_ws r hr
        cases hcr : r with
        | nil =>
          refine ⟨p, ?_⟩
          rw [hp, hcr]
        | cons c0 r0 =>
          exfalso
          have hrne : r ≠ [] := by rw [hcr]; exact List.cons_ne_nil _ _
          have hlast : (pyStrip t).getLast? = r.getLast? := by
            rw [hM, hp]
            rw [show '\x7b' :: (p ++ '\x7d' :: r) =
              (('\x7b' :: p) ++ ['\x7d']) ++ r by simp]
            exact List.getLast?_append_of_ne_nil _ hrne
          have hgl : r.getLast? = some (r.getLast hrne) :=
            List.getLast?_eq_getLast r hrne
          have hmem : r.getLast hrne ∈ r := List.getLast_mem hrne
          have hws : isJsonWs (r.getLast hrne) = true := hrws _ hmem
          have hps : isPySpace (r.getLast hrne) = false :=
            pyStrip_last t _ (hlast.trans hgl)
          rw [isJsonWs_isPySpace _ hws] at hps
          cases hps
    next => cases h
  next => cases h

/-- The code-fence stripping leaves a `{ ... }` text untouched. -/
theorem stripFences_obj (p : List Char) :
    stripFences ('\x7b' :: (p ++ ['\x7d'])) = '\x7b' :: (p ++ ['\x7d']) := by
  have h1 : lstarts ("```json".data) ('\x7b' :: (p ++ ['\x7d'])) = false := rfl
  have h2 : lstarts ("```".data) ('\x7b' :: (p ++ ['\x7d'])) = false := rfl
  have h3 : lends ("```".data) ('\x7b' :: (p ++ ['\x7d'])) = false := by
    unfold lends
    rw [show ('\x7b' :: (p ++ ['\x7d'])).reverse =
      '\x7d' :: (p.reverse ++ ['\x7b']) by simp]
    rfl
  simp [stripFences, stripLeadJson, stripLead3, stripTrail3, h1, h2, h3]

/-- On a text that decodes to a JSON object, the `try` block of
`_parse_ai_response` reduces to the three defaulting steps on that object.
-/
theorem parse_try_obj (t : List Char) (o : List (String × JVal))
    (h : json_loads t = some (JVal.obj o)) :
    parse_try t = applyDefaults (JVal.obj o) := by
  obtain ⟨p, hp⟩ := json_loads_obj_shape t o h
  have hnoop : pyStrip ('\x7b' :: (p ++ ['\x7d'])) = '\x7b' :: (p ++ ['\x7d']) :=
    pyStrip_noop _ _ _ rfl rfl
  have hjl : json_loads ('\x7b' :: (p ++ ['\x7d'])) = some (JVal.obj o) := by
    unfold json_loads
    rw [hnoop, ← hp]
    exact h
  unfold parse_try
  rw [hp, stripFences_obj p, hnoop, hjl]

theorem dlookup_dictInsert_same (m : List (String × JVal)) (k : String) (v : JVal) :
    dlookup (dictInsert m k v) k = some v := by
  induction m with
  | nil => simp [dictInsert, dlookup]
  | cons kv rest ih =>
    obtain ⟨k', v'⟩ := kv
    simp only [dictInsert]
    split
    next he => simp [dlookup, he]
    next he => simp [dlookup, he, ih]

theorem dlookup_dictInsert_other (m : List (String × JVal)) (k k' : String)
    (v : JVal) (h : k' ≠ k) :
    dlookup (dictInsert m k v) k' = dlookup m k' := by
  have hne : ¬k = k' := fun he => h he.symm
  induction m with
  | nil => simp [dictInsert, dlookup, hne]
  | cons kv rest ih =>
    obtain ⟨k0, v0⟩ := kv
    simp only [dictInsert]
    split
    next he =>
      subst he
      simp [dlookup, hne]
    next he => simp [dlookup, ih]

theorem defaultKey_obj (k : String) (d : JVal) (m : List (String × JVal)) :
    defaultKey k d (JVal.obj m) =
      Except.ok (JVal.obj (if (dlookup m k).isSome then m else dictInsert m k d)) := by
  unfold defaultKey pyContains pySetItem
  cases hs : (dlookup m k).isSome <;> simp [hs]

theorem dlookup_step_same (m : List (String × JVal)) (k : String) (d : JVal) :
    dlookup (if (dlookup m k).isSome then m else dictInsert m k d) k =
      some ((dlookup m k).getD d) := by
  cases hs : dlookup m k with
  | none => simp [hs, dlookup_dictInsert_same]
  | some v => simp [hs]

theorem dlookup_step_other (m : List (String × JVal)) (k k' : String) (d : JVal)
    (h : k' ≠ k) :
    dlookup (if (dlookup m k).isSome then m else dictInsert m k d) k' =
      dlookup m k' := by
  cases hs : dlookup m k with
  | none => simp [hs, dlookup_dictInsert_other _ _ _ _ h]
  | some v => simp [hs]

/-- The combined effect of the three defaulting steps on a decoded object:
each of the three optional keys ends up present (its old value, or the
default), and every other key is untouched. -/
theorem applyDefaults_obj_spec (o : List (String × JVal)) :
    ∃ o3, applyDefaults (JVal.obj o) = Except.ok (JVal.obj o3) ∧
      dlookup o3 ("safety_warnings") =
        some ((dlookup o ("safety_warnings")).getD (JVal.arr [])) ∧
      dlookup o3 ("guidance") = some ((dlookup o ("guidance")).getD (JVal.arr [])) ∧
      dlookup o3 ("confidence_score") =
        some ((dlookup o ("confidence_score")).getD (JVal.num (mkRat 8 10))) ∧
      (∀ k, k ≠ "safety_warnings" → k ≠ "guidance" → k ≠ "confidence_score" →
        dlookup o3 k = dlookup o k) := by
  have h1 := defaultKey_obj ("safety_warnings") (JVal.arr []) o
  generalize hq1 : (if (dlookup o ("safety_warnings")).isSome then o
    else dictInsert o ("safety_warnings") (JVal.arr [])) = o1 at h1
  have h2 := defaultKey_obj ("guidance") (JVal.arr []) o1
  generalize hq2 : (if (dlookup o1 ("guidance")).isSome then o1
    else dictInsert o1 ("guidance") (JVal.arr [])) = o2 at h2
  have h3 := defaultKey_obj ("confidence_score") (JVal.num (mkRat 8 10)) o2
  generalize hq3 : (if (dlookup o2 ("confidence_score")).isSome then o2
    else dictInsert o2 ("confidence_score") (JVal.num (mkRat 8 10))) = o3 at h3
  refine ⟨o3, ?_, ?_, ?_, ?_, ?_⟩
  · unfold applyDefaults
    rw [h1]
    dsimp only
    rw [h2]
    dsimp only
    exact h3
  · rw [← hq3, dlookup_step_other _ _ _ _ (by decide), ← hq2,
      dlookup_step_other _ _ _ _ (by decide), ← hq1, dlookup_step_same]
  · rw [← hq3, dlookup_step_other _ _ _ _ (by decide), ← hq2, dlookup_step_same,
      ← hq1, dlookup_step_other _ _ _ _ (by decide)]
  · rw [← hq3, dlookup_step_same, ← hq2, dlookup_step_other _ _ _ _ (by decide),
      ← hq1, dlookup_step_other _ _ _ _ (by decide)]
  · intro k ha hb hc
    rw [← hq3, dlookup_step_other _ _ _ _ hc, ← hq2, dlookup_step_other _ _ _ _ hb,
      ← hq1, dlookup_step_other _ _ _ _ ha]

theorem lstarts_append_self (p x : List Char) : lstarts p (p ++ x) = true := by
  induction p with
  | nil => rfl
  | cons c ps ih => simp [lstarts, ih]

theorem lends_suffix (p x : List Char) : lends p (x ++ p) = true := by
  unfold lends
  rw [List.reverse_append]
  exact lstarts_append_self _ _

theorem dropLastN_append (n : Nat) (x p : List Char) (h : p.length = n) :
    dropLastN n (x ++ p) = x := by
  unfold dropLastN
  rw [List.reverse_append, ← h, show p.length = p.reverse.length by
    rw [List.length_reverse], List.drop_left, List.reverse_reverse]


/-- Stripping the fences from a ```` ```json ````-wrapped text leaves the
text surrounded by the two fence newlines. -/
theorem stripFences_wrapJson (s : List Char) :
    stripFences ("```json\n".data ++ (s ++ "\n```".data)) = '\n' :: (s ++ ['\n']) := by
  have hW : "```json\n".data ++ (s ++ "\n```".data) =
      "```json".data ++ ('\n' :: (s ++ "\n```".data)) := by simp
  have h2 : lstarts ("```".data) ('\n' :: (s ++ "\n```".data)) = false := rfl
  have h3 : '\n' :: (s ++ "\n```".data) = ('\n' :: (s ++ ['\n'])) ++ "```".data := by
    simp
  unfold stripFences stripLeadJson
  rw [hW, if_pos (lstarts_append_self _ _)]
  rw [show (7 : Nat) = ("```json".data).length from rfl, List.drop_left]
  unfold stripLead3
  rw [h2]
  rw [if_neg (by decide)]
  unfold stripTrail3
  rw [h3, lends_suffix, if_pos (by decide)]
  exact dropLastN_append 3 _ _ rfl

/-- Stripping the fences from a plain ```` ``` ````-wrapped text. -/
theorem stripFences_wrapPlain (s : List Char) :
    stripFences ("```\n".data ++ (s ++ "\n```".data)) = '\n' :: (s ++ ['\n']) := by
  have h0 : lstarts ("```json".data) ("```\n".data ++ (s ++ "\n```".data)) = false := rfl
  have hW : "```\n".data ++ (s ++ "\n```".data) =
      "```".data ++ ('\n' :: (s ++ "\n```".data)) := by simp
  have h3 : '\n' :: (s ++ "\n```".data) = ('\n' :: (s ++ ['\n'])) ++ "```".data := by
    simp
  unfold stripFences stripLeadJson
  rw [h0]
  rw [if_neg (by decide)]
  unfold stripLead3
  rw [hW, if_pos (lstarts_append_self _ _)]
  rw [show (3 : Nat) = ("```".data).length from rfl, List.drop_left]
  unfold stripTrail3
  rw [h3, lends_suffix, if_pos (by decide)]
  exact dropLastN_append 3 _ _ rfl

/-- `json_loads` ignores the outer strip on an already-stripped object
text. -/
theorem json_loads_pyStrip_obj (s : List Char) (o : List (String × JVal))
    (h : json_loads s = some (JVal.obj o)) :
    json_loads (pyStrip s) = some (JVal.obj o) := by
  obtain ⟨p, hp⟩ := json_loads_obj_shape s o h
  unfold json_loads
  rw [hp, pyStrip_noop '\x7b' '\x7d' _ rfl rfl, ← hp]
  exact h

/-- The `try` block of `_parse_ai_response` on a ```` ```json ````-wrapped
object text reduces to the defaulting steps on the decoded object. -/
theorem parse_try_wrapJson (s : List Char) (o : List (String × JVal))
    (h : json_loads s = some (JVal.obj o)) :
    parse_try ("```json\n".data ++ (s ++ "\n```".data)) =
      applyDefaults (JVal.obj o) := by
  have hW : "```json\n".data ++ (s ++ "\n```".data) =
      '\x60' :: (("``json\n".data ++ (s ++ "\n``".data)) ++ ['\x60']) := by simp
  have h1 : pyStrip ("```json\n".data ++ (s ++ "\n```".data)) =
      "```json\n".data ++ (s ++ "\n```".data) := by
    rw [hW]
    rw [pyStrip_noop '\x60' '\x60' _ rfl rfl]
  unfold parse_try
  rw [h1, stripFences_wrapJson]
  rw [pyStrip_cons_ws '\n' _ rfl, pyStrip_snoc_ws '\n' _ rfl]
  rw [json_loads_pyStrip_obj s o h]

/-- The `try` block of `_parse_ai_response` on a plain ```` ``` ````-wrapped
object text reduces to the defaulting steps on the decoded object. -/
theorem parse_try_wrapPlain (s : List Char) (o : List (String × JVal))
    (h : json_loads s = some (JVal.obj o)) :
    parse_try ("```\n".data ++ (s ++ "\n```".data)) =
      applyDefaults (JVal.obj o) := by
  have hW : "```\n".data ++ (s ++ "\n```".data) =
      '\x60' :: (("``\n".data ++ (s ++ "\n``".data)) ++ ['\x60']) := by simp
  have h1 : pyStrip ("```\n".data ++ (s ++ "\n```".data)) =
      "```\n".data ++ (s ++ "\n```".data) := by
    rw [hW]
    rw [pyStrip_noop '\x60' '\x60' _ rfl rfl]
  unfold parse_try
  rw [h1, stripFences_wrapPlain]
  rw [pyStrip_cons_ws '\n' _ rfl, pyStrip_snoc_ws '\n' _ rfl]
  rw [json_loads_pyStrip_obj s o h]

/-! ### The claims -/

/-- C1: for every `image_data` and `experiment_type`, `analyze_image`
always returns a result; in model-backed mode every failure of the
pipeline (`ModelError`, `ParseError`, or any other exception of the `try`
block) is absorbed by returning the fallback `_mock_analysis` result for
that experiment type, never propagated. -/
theorem claim_C1_analyze_absorbs
    (genC : String → List Char → Except PyExc (List Char))
    (b64 : List Char → Except PyExc (List Char))
    (img : List Char) (etype : String) :
    analyze_image false genC b64 img etype = mock_analysis etype ∧
    ∃ result, analyze_image true genC b64 img etype = result ∧
      ((analyze_try genC b64 img etype = Except.ok result) ∨
       (∃ e, analyze_try genC b64 img etype = Except.error e ∧
         result = mock_analysis etype)) := by
  refine ⟨rfl, ?_⟩
  cases ht : analyze_try genC b64 img etype with
  | ok a =>
    refine ⟨a, ?_, Or.inl rfl⟩
    show analyze_with_ai genC b64 img etype = a
    unfold analyze_with_ai
    rw [ht]
  | error e =>
    refine ⟨mock_analysis etype, ?_, Or.inr ⟨e, rfl, rfl⟩⟩
    show analyze_with_ai genC b64 img etype = mock_analysis etype
    unfold analyze_with_ai
    rw [ht]

/-- C2: in mock mode (no credential), `analyze_image` for domain
`circuits` returns a result with confidence 0.85, 2 components,
2 safety warnings and 7 guidance steps. -/
theorem claim_C2_mock_circuits
    (genC : String → List Char → Except PyExc (List Char))
    (b64 : List Char → Except PyExc (List Char)) (img : List Char) :
    jGet (analyze_image false genC b64 img "circuits") ("confidence_score") =
      some (JVal.num (0.85 : ℚ)) ∧
    jArrLen (analyze_image false genC b64 img "circuits") ("components") = some 2 ∧
    jArrLen (analyze_image false genC b64 img "circuits") ("safety_warnings") = some 2 ∧
    jArrLen (analyze_image false genC b64 img "circuits") ("guidance") = some 7 := by
  refine ⟨?_, rfl, rfl, rfl⟩
  rw [show (0.85 : ℚ) = mkRat 85 100 by norm_num]
  rfl

/-- C6: `_build_analysis_prompt` maps every unrecognized domain to the
`general` focus block, while `_mock_analysis` maps every input outside
`circuits`/`chemistry`/`physics` (including `general` and
`unknown-domain`) to the circuits fallback. -/
theorem claim_C6_domain_defaults (d : String) (h1 : d ≠ "circuits")
    (h2 : d ≠ "chemistry") (h3 : d ≠ "physics") :
    build_analysis_prompt d = build_analysis_prompt "general" ∧
    mock_analysis d = mock_analysis "circuits" := by
  constructor
  · unfold build_analysis_prompt
    rw [if_neg h1, if_neg h2, if_neg h3]
    rfl
  · unfold mock_analysis
    rw [if_neg h1, if_neg h2, if_neg h3]
    rfl

/-- Witness for C6 at the concrete domain `unknown-domain`. -/
theorem claim_C6_witness :
    build_analysis_prompt "unknown-domain" = build_analysis_prompt "general" ∧
    mock_analysis "unknown-domain" = mock_analysis "circuits" :=
  claim_C6_domain_defaults "unknown-domain" (by decide) (by decide) (by decide)

/-- C7: each of the three fallback results is schema-valid: confidence in
`[0, 1]`, every severity in the four-value enumeration, guidance numbered
consecutively from 1. -/
theorem claim_C7_fallback_valid (d : String)
    (h : d = "circuits" ∨ d = "chemistry" ∨ d = "physics") :
    confidenceInRange (mock_analysis d) = true ∧
    warningsValid (mock_analysis d) = true ∧
    guidanceConsecutive (mock_analysis d) = true := by
  rcases h with rfl | rfl | rfl
  · exact ⟨rfl, rfl, rfl⟩
  · exact ⟨rfl, rfl, rfl⟩
  · exact ⟨rfl, rfl, rfl⟩

/-- Witness for C7 at the concrete domain `circuits`. -/
theorem claim_C7_witness :
    confidenceInRange (mock_analysis "circuits") = true ∧
    warningsValid (mock_analysis "circuits") = true ∧
    guidanceConsecutive (mock_analysis "circuits") = true :=
  claim_C7_fallback_valid "circuits" (Or.inl rfl)

/-- C9: the text `[1, 2]` decodes as valid JSON (an array, not an object),
and on it `_parse_ai_response` neither returns a result nor takes the
decode-failure fallback: the key-defaulting step raises `TypeError`,
which the handler (covering only `json.JSONDecodeError`) does not catch. -/
theorem claim_C9_nonobject_uncaught :
    json_loads ("[1, 2]".data) = some (JVal.arr [JVal.num 1, JVal.num 2]) ∧
    parse_try ("[1, 2]".data) = Except.error PyExc.typeError ∧
    parse_ai_response ("[1, 2]".data) ("circuits") = Except.error PyExc.typeError :=
  ⟨rfl, rfl, rfl⟩

/-- C10: in mock mode the result of `analyze_image` does not depend on the
submitted image: any two image payloads give equal results. -/
theorem claim_C10_mock_ignores_image
    (genC : String → List Char → Except PyExc (List Char))
    (b64 : List Char → Except PyExc (List Char))
    (etype : String) (img1 img2 : List Char) :
    analyze_image false genC b64 img1 etype =
      analyze_image false genC b64 img2 etype := rfl

/-- C3: on any text that decodes to a JSON object, `_parse_ai_response`
returns that object with each missing optional key defaulted
(`safety_warnings` and `guidance` to an empty sequence, `confidence_score`
to 0.8), keys already present kept as they were, and every other field
returned unchanged. -/
theorem claim_C3_parse_defaults (t : List Char) (o : List (String × JVal))
    (etype : String) (h : json_loads t = some (JVal.obj o)) :
    ∃ o', parse_ai_response t etype = Except.ok (JVal.obj o') ∧
      (dlookup o ("safety_warnings") = none →
        dlookup o' ("safety_warnings") = some (JVal.arr [])) ∧
      (dlookup o ("guidance") = none →
        dlookup o' ("guidance") = some (JVal.arr [])) ∧
      (dlookup o ("confidence_score") = none →
        dlookup o' ("confidence_score") = some (JVal.num (0.8 : ℚ))) ∧
      (∀ v, dlookup o ("safety_warnings") = some v →
        dlookup o' ("safety_warnings") = some v) ∧
      (∀ v, dlookup o ("guidance") = some v → dlookup o' ("guidance") = some v) ∧
      (∀ v, dlookup o ("confidence_score") = some v →
        dlookup o' ("confidence_score") = some v) ∧
      (∀ k, k ≠ "safety_warnings" → k ≠ "guidance" → k ≠ "confidence_score" →
        dlookup o' k = dlookup o k) := by
  obtain ⟨o3, hAD, hsw, hg, hcs, hother⟩ := applyDefaults_obj_spec o
  have hpr : parse_ai_response t etype = Except.ok (JVal.obj o3) := by
    unfold parse_ai_response
    rw [parse_try_obj t o h, hAD]
  refine ⟨o3, hpr, ?_, ?_, ?_, ?_, ?_, ?_, hother⟩
  · intro hn; rw [hsw, hn]; rfl
  · intro hn; rw [hg, hn]; rfl
  · intro hn
    rw [hcs, hn, show (0.8 : ℚ) = mkRat 8 10 by norm_num]
    rfl
  · intro v hv; rw [hsw, hv]; rfl
  · intro v hv; rw [hg, hv]; rfl
  · intro v hv; rw [hcs, hv]; rfl

/-- Witness for C3 on the concrete object text `{"a": 1}` (all three
optional keys missing). -/
theorem claim_C3_witness :
    ∃ o', parse_ai_response ("\x7b\x22a\x22: 1\x7d".data) ("circuits") =
        Except.ok (JVal.obj o') ∧
      (dlookup [("a", JVal.num 1)] ("safety_warnings") = none →
        dlookup o' ("safety_warnings") = some (JVal.arr [])) ∧
      (dlookup [("a", JVal.num 1)] ("guidance") = none →
        dlookup o' ("guidance") = some (JVal.arr [])) ∧
      (dlookup [("a", JVal.num 1)] ("confidence_score") = none →
        dlookup o' ("confidence_score") = some (JVal.num (0.8 : ℚ))) ∧
      (∀ v, dlookup [("a", JVal.num 1)] ("safety_warnings") = some v →
        dlookup o' ("safety_warnings") = some v) ∧
      (∀ v, dlookup [("a", JVal.num 1)] ("guidance") = some v →
        dlookup o' ("guidance") = some v) ∧
      (∀ v, dlookup [("a", JVal.num 1)] ("confidence_score") = some v →
        dlookup o' ("confidence_score") = some v) ∧
      (∀ k, k ≠ "safety_warnings" → k ≠ "guidance" → k ≠ "confidence_score" →
        dlookup o' k = dlookup [("a", JVal.num 1)] k) :=
  claim_C3_parse_defaults ("\x7b\x22a\x22: 1\x7d".data) [("a", JVal.num 1)]
    ("circuits") (by rfl)

/-- C4: when the text the parser is left with does not decode,
`_parse_ai_response`'s `try` block fails with `json.JSONDecodeError` (the
`ParseError` of the design), the handler returns the mock analysis, and
the orchestrator given a model that returns such text for domain `physics`
returns exactly the `physics` fallback. -/
theorem claim_C4_parse_error_fallback (t : List Char) (etype : String)
    (h : json_loads (pyStrip (stripFences (pyStrip t))) = none) :
    parse_try t = Except.error PyExc.jsonDecodeError ∧
    parse_ai_response t etype = Except.ok (mock_analysis etype) ∧
    (∀ genC b64 img, (∀ p b, genC p b = Except.ok t) →
      analyze_image true genC b64 img "physics" = mock_analysis "physics") := by
  have hpt : parse_try t = Except.error PyExc.jsonDecodeError := by
    unfold parse_try
    rw [h]
  refine ⟨hpt, ?_, ?_⟩
  · unfold parse_ai_response
    rw [hpt]
  · intro genC b64 img hg
    have hpr2 : parse_ai_response t "physics" = Except.ok (mock_analysis "physics") := by
      unfold parse_ai_response
      rw [hpt]
    have key : analyze_try genC b64 img "physics" =
        Except.ok (mock_analysis "physics") ∨
        ∃ e, analyze_try genC b64 img "physics" = Except.error e := by
      unfold analyze_try
      split
      next e heq => exact Or.inr ⟨e, rfl⟩
      next payload heq =>
        split
        next e heq2 => exact Or.inr ⟨e, rfl⟩
        next bytes heq2 =>
          rw [hg _ bytes]
          exact Or.inl hpr2
    show analyze_with_ai genC b64 img "physics" = mock_analysis "physics"
    unfold analyze_with_ai
    rcases key with hk | ⟨e, hk⟩ <;> rw [hk]

/-- Witness for C4 on the concrete non-decodable text `not json`. -/
theorem claim_C4_witness :
    parse_try ("not json".data) = Except.error PyExc.jsonDecodeError ∧
    parse_ai_response ("not json".data) ("circuits") =
      Except.ok (mock_analysis "circuits") ∧
    analyze_image true (genC_text ("not json".data)) b64_id [] "physics" =
      mock_analysis "physics" := by
  have hmain := claim_C4_parse_error_fallback ("not json".data) ("circuits") (by rfl)
  exact ⟨hmain.1, hmain.2.1,
    hmain.2.2 (genC_text ("not json".data)) b64_id [] (fun _ _ => rfl)⟩

/-- C5: on any text that decodes to a JSON object, `_parse_ai_response`
gives the same result whether the text arrives wrapped in a markdown code
fence (with the `json` language tag or with none) or unwrapped. -/
theorem claim_C5_fenced_equivalent (s : List Char) (o : List (String × JVal))
    (etype : String) (h : json_loads s = some (JVal.obj o)) :
    parse_ai_response ("```json\n".data ++ (s ++ "\n```".data)) etype =
      parse_ai_response s etype ∧
    parse_ai_response ("```\n".data ++ (s ++ "\n```".data)) etype =
      parse_ai_response s etype := by
  have hu : parse_try s = applyDefaults (JVal.obj o) := parse_try_obj s o h
  constructor
  · unfold parse_ai_response
    rw [parse_try_wrapJson s o h, hu]
  · unfold parse_ai_response
    rw [parse_try_wrapPlain s o h, hu]

/-- Witness for C5 on the concrete object text `{}`. -/
theorem claim_C5_witness :
    parse_ai_response ("```json\n".data ++ ("\x7b\x7d".data ++ "\n```".data))
        ("physics") = parse_ai_response ("\x7b\x7d".data) ("physics") ∧
    parse_ai_response ("```\n".data ++ ("\x7b\x7d".data ++ "\n```".data))
        ("physics") = parse_ai_response ("\x7b\x7d".data) ("physics") :=
  claim_C5_fenced_equivalent ("\x7b\x7d".data) [] ("physics") (by rfl)

/-- C8: with the real model configured but every invocation failing,
`analyze_image` for domain `chemistry` returns the chemistry fallback,
whose confidence is 0.75 and whose guidance has 5 steps. -/
theorem claim_C8_failing_model_chemistry
    (genC : String → List Char → Except PyExc (List Char))
    (b64 : List Char → Except PyExc (List Char)) (img : List Char)
    (hfail : ∀ p b, ∃ e, genC p b = Except.error e) :
    analyze_image true genC b64 img "chemistry" = mock_analysis "chemistry" ∧
    jGet (mock_analysis "chemistry") ("confidence_score") =
      some (JVal.num (0.75 : ℚ)) ∧
    jArrLen (mock_analysis "chemistry") ("guidance") = some 5 := by
  refine ⟨?_, ?_, rfl⟩
  · have key : ∃ e, analyze_try genC b64 img "chemistry" = Except.error e := by
      unfold analyze_try
      split
      next e heq => exact ⟨e, rfl⟩
      next payload heq =>
        split
        next e heq2 => exact ⟨e, rfl⟩
        next bytes heq2 =>
          obtain ⟨e, he⟩ := hfail (build_analysis_prompt "chemistry") bytes
          rw [he]
          exact ⟨e, rfl⟩
    obtain ⟨e, he⟩ := key
    show analyze_with_ai genC b64 img "chemistry" = mock_analysis "chemistry"
    unfold analyze_with_ai
    rw [he]
  · rw [show (0.75 : ℚ) = mkRat 75 100 by norm_num]
    rfl

/-- Witness for C8 with the always-failing model at a concrete input. -/
theorem claim_C8_witness :
    analyze_image true genC_fail b64_id [] "chemistry" =
      mock_analysis "chemistry" ∧
    jGet (mock_analysis "chemistry") ("confidence_score") =
      some (JVal.num (0.75 : ℚ)) ∧
    jArrLen (mock_analysis "chemistry") ("guidance") = some 5 :=
  claim_C8_failing_model_chemistry genC_fail b64_id []
    (fun _ _ => ⟨PyExc.modelError, rfl⟩)
